import Mathlib

/-!
Shallow embedding of `src/uxdat.py` (njasharp/UxData-demo): the profile record,
the rule engine (`generate_action_plan_with_features`,
`generate_seo_aso_suggestions`), the narrative formatter / export
(`display_ai_agent_results`), and the completion-client adapter
(`expand_strategies_with_llm`, `groq_ai_section_with_features`).
Machine integers are embedded as `Int`; the floating-point temperature is
embedded as `ℚ` (only ever compared for equality against literals); the
hosted chat-completion API is an explicit oracle parameter.
-/

namespace UxData

/-- The `SUPPORTED_MODELS` dict (src/uxdat.py lines 12-23), in insertion
order, as an association list from display name to vendor identifier. -/
def SUPPORTED_MODELS : List (String × String) :=
  [ ("Llama 3.2 1B (Preview)", "llama-3.2-1b-preview"),
    ("Llama 3 70B", "llama3-70b-8192"),
    ("Llama 3 8B", "llama3-8b-8192"),
    ("Llama 3.1 70B", "llama-3.1-70b-versatile"),
    ("Llama 3.1 8B", "llama-3.1-8b-instant"),
    ("Mixtral 8x7B", "mixtral-8x7b-32768"),
    ("Gemma 2 9B", "gemma2-9b-it"),
    ("LLaVA 1.5 7B", "llava-v1.5-7b-4096-preview"),
    ("Llama 3.2 3B (Preview)", "llama-3.2-3b-preview"),
    ("Llama 3.2 11B Vision (Preview)", "llama-3.2-11b-vision-preview") ]

/-- `MAX_TOKENS` (src/uxdat.py line 25). -/
def MAX_TOKENS : Nat := 1000

/-- The dict returned by `create_user_profile` (src/uxdat.py lines 94-102):
a flat record of the form answers.  Sliders produce integers, the choice
widgets produce strings, the multiselect widgets produce lists of strings
in selection order. -/
structure UserProfile where
  age : Int
  gaming_frequency : String
  preferred_genre : String
  hours_played_per_week : Int
  competitiveness : String
  selected_features : List String
  selected_event_types : List String
deriving Repr, DecidableEq

/-- The dict built by `generate_action_plan_with_features`
(src/uxdat.py lines 137-140). -/
structure ActionPlan where
  game_recommendations : List String
  strategies : List String
deriving Repr, DecidableEq

/-- The dict returned by `generate_seo_aso_suggestions`
(src/uxdat.py lines 131-134). -/
structure SuggestionSet where
  seo_suggestions : List String
  aso_suggestions : List String
deriving Repr, DecidableEq

/-- The `game_recommendations` dict literal (src/uxdat.py lines 147-153),
in insertion order. -/
def game_recommendations_table : List (String × List String) :=
  [ ("Puzzle", ["Candy Crush Saga", "Two Dots", "Monument Valley"]),
    ("Action", ["PUBG Mobile", "Call of Duty: Mobile", "Brawl Stars"]),
    ("RPG", ["Genshin Impact", "Final Fantasy Brave Exvius", "Another Eden"]),
    ("Strategy", ["Clash Royale", "Rise of Kingdoms", "Plague Inc."]),
    ("Casual", ["Among Us", "Subway Surfers", "Temple Run"]) ]

/-- Strategy string appended when `hours < 5` (src/uxdat.py line 159). -/
def consistency_strategy : String :=
  "Set aside specific times for gaming to maintain consistency."

/-- Strategy string appended when `hours > 20` (src/uxdat.py line 161). -/
def balance_strategy : String :=
  "Consider balancing gaming time with other activities for a well-rounded lifestyle."

/-- Strategy string appended when `competitiveness == "Very Competitive"`
(src/uxdat.py line 163). -/
def focus_strategy : String :=
  "Focus on mastering one or two games rather than playing many casually."

/-- `generate_action_plan_with_features` (src/uxdat.py lines 136-165):
genre lookup with empty-list default (`dict.get(genre, [])`), then three
independent conditional appends to the `strategies` list, in source order. -/
def generate_action_plan_with_features (p : UserProfile) : ActionPlan :=
  let recs := (game_recommendations_table.lookup p.preferred_genre).getD []
  let s0 : List String := []
  let s1 := if p.hours_played_per_week < 5 then s0 ++ [consistency_strategy] else s0
  let s2 := if p.hours_played_per_week > 20 then s1 ++ [balance_strategy] else s1
  let s3 := if p.competitiveness = "Very Competitive" then s2 ++ [focus_strategy] else s2
  { game_recommendations := recs, strategies := s3 }

/-- SEO sentence for genre "Casual" (src/uxdat.py line 114). -/
def seo_casual : String :=
  "Target keywords like \x27free casual games\x27, \x27best casual games\x27, \x27mobile games to relax\x27."

/-- SEO sentence for genre "RPG" (src/uxdat.py line 116). -/
def seo_rpg : String :=
  "Optimize for \x27top RPG mobile games\x27, \x27best free RPGs\x27, \x27immersive RPG games\x27."

/-- SEO sentence for genre "Puzzle" (src/uxdat.py line 118). -/
def seo_puzzle : String :=
  "Use keywords such as \x27brain games\x27, \x27best puzzle games\x27, \x27mobile puzzle games\x27."

/-- SEO sentence for feature "Game Progression" (src/uxdat.py line 121). -/
def seo_progression : String :=
  "Include keywords related to \x27level-based games\x27, \x27game progression mechanics\x27."

/-- First ASO sentence for event type "Special Promotions" (src/uxdat.py line 125). -/
def aso_promo_1 : String :=
  "Utilize limited-time events in app description to encourage installs."

/-- Second ASO sentence for event type "Special Promotions" (src/uxdat.py line 126). -/
def aso_promo_2 : String :=
  "Highlight special promotions and seasonal events in the app’s title or subtitle."

/-- ASO sentence for feature "Social Interaction" (src/uxdat.py line 129). -/
def aso_social : String :=
  "Mention social features like multiplayer and leaderboards in the description."

/-- `generate_seo_aso_suggestions` (src/uxdat.py lines 105-134): an
`if/elif` chain on the genre followed by a feature check builds the SEO
list; an event-type check (appending two sentences) followed by a feature
check builds the ASO list, each appending in source order. -/
def generate_seo_aso_suggestions (p : UserProfile) : SuggestionSet :=
  let seo0 : List String := []
  let seo1 :=
    if p.preferred_genre = "Casual" then seo0 ++ [seo_casual]
    else if p.preferred_genre = "RPG" then seo0 ++ [seo_rpg]
    else if p.preferred_genre = "Puzzle" then seo0 ++ [seo_puzzle]
    else seo0
  let seo2 :=
    if "Game Progression" ∈ p.selected_features then seo1 ++ [seo_progression] else seo1
  let aso0 : List String := []
  let aso1 :=
    if "Special Promotions" ∈ p.selected_event_types then
      aso0 ++ [aso_promo_1] ++ [aso_promo_2]
    else aso0
  let aso2 :=
    if "Social Interaction" ∈ p.selected_features then aso1 ++ [aso_social] else aso1
  { seo_suggestions := seo2, aso_suggestions := aso2 }

/-- The Python idiom `', '.join(xs) if xs else 'None'` used for the two
list fields in the profile display (src/uxdat.py lines 178-179) and in the
enhanced-plan user query (lines 244-245): a comma-joined string, or the
literal placeholder `None` for an empty list. -/
def joinOrNone (xs : List String) : String :=
  if xs.isEmpty then "None" else String.intercalate ", " xs

/-- The profile f-string written by `display_ai_agent_results`
(src/uxdat.py lines 172-180), whitespace included: each line is indented
four spaces and all but the last two end in two trailing spaces. -/
def user_profile_display (p : UserProfile) : String :=
  "\n    **Age:** " ++ toString p.age ++
  "  \n    **Gaming Frequency:** " ++ p.gaming_frequency ++
  "  \n    **Preferred Genre:** " ++ p.preferred_genre ++
  "  \n    **Hours Played per Week:** " ++ toString p.hours_played_per_week ++
  "  \n    **Competitiveness:** " ++ p.competitiveness ++
  "  \n    **Selected Features:** " ++ joinOrNone p.selected_features ++
  "  \n    **Selected Event Types:** " ++ joinOrNone p.selected_event_types ++
  "\n    "

/-- Python `repr` of a plain string (no quotes or escapes occur in any
value this program renders): the string wrapped in single quotes. -/
def pyRepr (s : String) : String := "\x27" ++ s ++ "\x27"

/-- Python `repr` of a list of strings: square brackets around the
comma-separated `repr`s of the elements; `[]` for the empty list. -/
def pyReprList (xs : List String) : String :=
  "[" ++ String.intercalate ", " (xs.map pyRepr) ++ "]"

/-- Python `str()` of the `user_profile` dict as interpolated into
`full_results` (src/uxdat.py line 217): keys in insertion order, string
values single-quoted, list values in Python list syntax. -/
def pyReprProfile (p : UserProfile) : String :=
  "\x7b" ++ pyRepr "Age" ++ ": " ++ toString p.age ++
  ", " ++ pyRepr "Gaming Frequency" ++ ": " ++ pyRepr p.gaming_frequency ++
  ", " ++ pyRepr "Preferred Genre" ++ ": " ++ pyRepr p.preferred_genre ++
  ", " ++ pyRepr "Hours Played per Week" ++ ": " ++ toString p.hours_played_per_week ++
  ", " ++ pyRepr "Competitiveness" ++ ": " ++ pyRepr p.competitiveness ++
  ", " ++ pyRepr "Selected Features" ++ ": " ++ pyReprList p.selected_features ++
  ", " ++ pyRepr "Selected Event Types" ++ ": " ++ pyReprList p.selected_event_types ++
  "\x7d"

/-- Python `str()` of the `seo_aso_suggestions` dict as interpolated into
`full_results` (src/uxdat.py line 217). -/
def pyReprSuggestions (s : SuggestionSet) : String :=
  "\x7b" ++ pyRepr "SEO Suggestions" ++ ": " ++ pyReprList s.seo_suggestions ++
  ", " ++ pyRepr "ASO Suggestions" ++ ": " ++ pyReprList s.aso_suggestions ++ "\x7d"

/-- The `full_results` f-string (src/uxdat.py line 217): the text block
shown under "Full Game Strategy Plan" and also passed verbatim as the
`data` of the download button. -/
def full_results (p : UserProfile) (plan : ActionPlan) (sugg : SuggestionSet) : String :=
  "User Profile:\n" ++ pyReprProfile p ++
  "\n\nGame Recommendations:\n" ++ pyReprList plan.game_recommendations ++
  "\n\nStrategies and Best Practices:\n" ++ pyReprList plan.strategies ++
  "\n\nSEO and ASO Suggestions:\n" ++ pyReprSuggestions sugg

/-- One call to `expand_strategies_with_llm` as issued from
`display_ai_agent_results` (src/uxdat.py line 195): the arguments of the
call, the temperature being the default of the `temperature` parameter
(src/uxdat.py line 49). -/
structure ExpandCall where
  model : String
  system_prompt : String
  strategy : String
  temperature : ℚ
deriving Repr, DecidableEq

/-- The observable text output of `display_ai_agent_results`
(src/uxdat.py lines 167-223): the profile section, the per-strategy
expansion calls it issues, the "Full Game Strategy Plan" text block
(line 220), and the data of the download button (line 223). -/
structure DisplayOutput where
  profile_section : String
  expansion_calls : List ExpandCall
  full_plan_section : String
  download_data : String
deriving Repr, DecidableEq

/-- `display_ai_agent_results` (src/uxdat.py lines 167-223) restricted to
its text outputs: the profile f-string; one expansion call per strategy
with the hard-coded model name, system prompt and default temperature 0.7
(line 195 and the default on line 49); and `full_results` both displayed
(line 220) and offered for download (line 223). -/
def display_ai_agent_results (action_plan : ActionPlan) (user_profile : UserProfile) :
    DisplayOutput :=
  let seo_aso_suggestions := generate_seo_aso_suggestions user_profile
  let fr := full_results user_profile action_plan seo_aso_suggestions
  { profile_section := user_profile_display user_profile,
    expansion_calls := action_plan.strategies.map (fun strategy =>
      { model := "Llama 3 70B",
        system_prompt := "You are an expert in game development and strategy.",
        strategy := strategy,
        temperature := 0.7 }),
    full_plan_section := fr,
    download_data := fr }

/-- Outcome of one `client.chat.completions.create` call: either a
response carrying its (possibly empty) list of choice message contents,
or a raised exception carrying `str(e)`. -/
inductive ApiOutcome where
  | ok (choices : List String)
  | exc (msg : String)
deriving Repr, DecidableEq

/-- The request record handed to `client.chat.completions.create`
(src/uxdat.py lines 53-61): vendor model identifier, system then user
message, sampling temperature, `max_tokens=MAX_TOKENS`. -/
structure ChatRequest where
  model : String
  system_content : String
  user_content : String
  temperature : ℚ
  max_tokens : Nat
deriving Repr, DecidableEq

/-- The user query built by `expand_strategies_with_llm`
(src/uxdat.py line 50). -/
def expand_user_query (strategy : String) : String :=
  "Expand the following strategy and include recommendations for best practices:\n\nStrategy: " ++ strategy

/-- `expand_strategies_with_llm` (src/uxdat.py lines 49-67), with the
hosted API as an explicit oracle.  The dict lookup
`SUPPORTED_MODELS[model]` happens inside the `try`, so an unknown model
name raises a `KeyError` (whose `str` is the quoted key) that the
`except Exception` clause converts to the same error string as a
transport failure; no request is issued in that case.  A response with
choices yields the first choice's content; an empty `choices` yields the
sentinel text. -/
def expand_strategies_with_llm (api : ChatRequest → ApiOutcome)
    (model system_prompt strategy : String) (temperature : ℚ) : String :=
  let user_query := expand_user_query strategy
  match SUPPORTED_MODELS.lookup model with
  | none => "Error generating strategy expansion: " ++ "\x27" ++ model ++ "\x27"
  | some mid =>
    match api { model := mid, system_content := system_prompt,
                user_content := user_query, temperature := temperature,
                max_tokens := MAX_TOKENS } with
    | .ok [] => "No expansion available for this strategy."
    | .ok (c :: _) => c
    | .exc e => "Error generating strategy expansion: " ++ e

/-- The system prompt of the enhanced-plan request
(src/uxdat.py lines 232-235), whitespace of the triple-quoted literal
included. -/
def plan_system_prompt : String :=
  "\n            You are an AI assistant specializing in mobile game strategy and player profiling. \n            Based on the following user profile and selected game features, generate a detailed plan for enhancing their gaming experience.\n            "

/-- The user query of the enhanced-plan request
(src/uxdat.py lines 237-248), whitespace of the triple-quoted f-string
included. -/
def plan_user_query (p : UserProfile) : String :=
  "\n            User Profile:\n            - Age: " ++ toString p.age ++
  "\n            - Gaming Frequency: " ++ p.gaming_frequency ++
  "\n            - Preferred Genre: " ++ p.preferred_genre ++
  "\n            - Hours Played per Week: " ++ toString p.hours_played_per_week ++
  "\n            - Competitiveness: " ++ p.competitiveness ++
  "\n            - Selected Features: " ++ joinOrNone p.selected_features ++
  "\n            - Selected Event Types: " ++ joinOrNone p.selected_event_types ++
  "\n\n            Please provide a comprehensive gaming plan and strategy for this user, including relevant suggestions for the selected features and event types.\n            "

/-- Whether the first list is a prefix of the second, character by
character: the meaning of Python's `str.startswith`. -/
def starts_chars : List Char → List Char → Bool
  | [], _ => true
  | _ :: _, [] => false
  | a :: as, b :: bs => a == b && starts_chars as bs

/-- Python's `str.startswith` on the character sequences of the two
strings (src/uxdat.py line 253 uses it on the adapter's reply). -/
def py_startswith (s pre : String) : Bool :=
  starts_chars pre.data s.data

/-- Whether the first list occurs as a contiguous run inside the second:
the meaning of Python's `in` on strings. -/
def occurs_chars (needle : List Char) : List Char → Bool
  | [] => starts_chars needle []
  | b :: bs => starts_chars needle (b :: bs) || occurs_chars needle bs

/-- Python's `in` operator on strings, used here to observe the rendered
text blocks. -/
def py_in (needle hay : String) : Bool :=
  occurs_chars needle.data hay.data

/-- Modelled from the spec: `query_groq` is called at src/uxdat.py
line 251 but is not defined anywhere under src/.  Per the spec (§4.3,
§6, §7): `generatePlan(modelId, temperature, instructions, profileSummary)`
sends a chat-completion request and returns the first choice's message
text, or an absence-of-choices sentinel text (its exact wording is not
fixed by the spec), or, when the call raises, a caught-exception error
string prefixed "Error:".  The hosted API is again an explicit oracle. -/
def query_groq (api : ChatRequest → ApiOutcome)
    (model : String) (temperature : ℚ) (system_prompt user_query : String) : String :=
  match api { model := model, system_content := system_prompt,
              user_content := user_query, temperature := temperature,
              max_tokens := MAX_TOKENS } with
  | .ok [] => "No response generated."
  | .ok (c :: _) => c
  | .exc e => "Error: " ++ e

/-- What `groq_ai_section_with_features` does with the adapter's reply
(src/uxdat.py lines 253-258): a reply starting with "Error:" is shown as
an inline error, anything else is shown as the enhanced plan and offered
for download. -/
inductive PlanOutcome where
  | errorShown (msg : String)
  | planShown (text : String)
deriving Repr, DecidableEq

/-- `groq_ai_section_with_features` (src/uxdat.py lines 225-258) after
the generate button is pressed with the sidebar selection
(`model`, `temperature`): builds the enhanced-plan request from the
profile, calls `query_groq`, and branches on the "Error:" prefix of the
reply. -/
def groq_ai_section_with_features (api : ChatRequest → ApiOutcome)
    (model : String) (temperature : ℚ) (user_profile : UserProfile) : PlanOutcome :=
  let response := query_groq api model temperature plan_system_prompt (plan_user_query user_profile)
  if py_startswith response "Error:" then .errorShown response
  else .planShown response

/-- A concrete profile with an empty feature selection (and empty event
selection), used to exercise the formatter and the export. -/
def c4_profile : UserProfile :=
  ⟨25, "Daily", "Shooter", 10, "Not at all", [], []⟩

/-! Helper lemmas. -/

/-- A character list is a `starts_chars`-prefix of itself followed by
anything. -/
theorem starts_chars_append (xs ys : List Char) : starts_chars xs (xs ++ ys) = true := by
  induction xs with
  | nil => rfl
  | cons a as ih => simp [starts_chars, ih]

/-- A string followed by anything starts with that string. -/
theorem py_startswith_append (p r : String) : py_startswith (p ++ r) p = true := by
  unfold py_startswith
  rw [String.data_append]
  exact starts_chars_append _ _

/-! Claim theorems. -/

/-- C5: for every profile with preferred genre "RPG" the action plan's
recommendation list is exactly ["Genshin Impact", "Final Fantasy Brave
Exvius", "Another Eden"], and for every genre outside the fixed 5-genre
table the recommendation list is empty. -/
theorem c5_genre_lookup (p : UserProfile) :
    (p.preferred_genre = "RPG" →
      (generate_action_plan_with_features p).game_recommendations =
        ["Genshin Impact", "Final Fantasy Brave Exvius", "Another Eden"]) ∧
    (p.preferred_genre ∉ ["Puzzle", "Action", "RPG", "Strategy", "Casual"] →
      (generate_action_plan_with_features p).game_recommendations = []) := by
  constructor
  · intro h
    simp [generate_action_plan_with_features, game_recommendations_table, List.lookup, h]
  · intro h
    simp only [List.mem_cons, List.not_mem_nil, or_false, not_or] at h
    obtain ⟨h1, h2, h3, h4, h5⟩ := h
    simp [generate_action_plan_with_features, game_recommendations_table, List.lookup,
      beq_eq_false_iff_ne.mpr h1, beq_eq_false_iff_ne.mpr h2, beq_eq_false_iff_ne.mpr h3,
      beq_eq_false_iff_ne.mpr h4, beq_eq_false_iff_ne.mpr h5]

/-- C5 witness: the theorem applied to a profile with genre "RPG" and to
one with the unlisted genre "Shooter". -/
theorem c5_genre_lookup_witness :
    (generate_action_plan_with_features
      ⟨25, "Daily", "RPG", 5, "Somewhat", [], []⟩).game_recommendations =
      ["Genshin Impact", "Final Fantasy Brave Exvius", "Another Eden"] ∧
    (generate_action_plan_with_features
      ⟨25, "Daily", "Shooter", 5, "Somewhat", [], []⟩).game_recommendations = [] :=
  ⟨(c5_genre_lookup _).1 rfl, (c5_genre_lookup _).2 (by decide)⟩

/-- C6: the three strategy rules are independent, all evaluated, in fixed
order — the strategies list is the concatenation of the conditional
consistency, balance and focus entries; in particular hours = 3 yields
consistency and not balance, hours = 25 yields balance and not
consistency, hours = 10 yields neither, "Very Competitive" always yields
focus, and no rule firing yields the empty list. -/
theorem c6_strategy_rules (p : UserProfile) :
    (generate_action_plan_with_features p).strategies =
      (if p.hours_played_per_week < 5 then [consistency_strategy] else []) ++
      (if p.hours_played_per_week > 20 then [balance_strategy] else []) ++
      (if p.competitiveness = "Very Competitive" then [focus_strategy] else []) ∧
    (p.hours_played_per_week = 3 →
      consistency_strategy ∈ (generate_action_plan_with_features p).strategies ∧
      balance_strategy ∉ (generate_action_plan_with_features p).strategies) ∧
    (p.hours_played_per_week = 25 →
      balance_strategy ∈ (generate_action_plan_with_features p).strategies ∧
      consistency_strategy ∉ (generate_action_plan_with_features p).strategies) ∧
    (p.hours_played_per_week = 10 →
      consistency_strategy ∉ (generate_action_plan_with_features p).strategies ∧
      balance_strategy ∉ (generate_action_plan_with_features p).strategies) ∧
    (p.competitiveness = "Very Competitive" →
      focus_strategy ∈ (generate_action_plan_with_features p).strategies) ∧
    (5 ≤ p.hours_played_per_week → p.hours_played_per_week ≤ 20 →
      p.competitiveness ≠ "Very Competitive" →
      (generate_action_plan_with_features p).strategies = []) := by
  unfold generate_action_plan_with_features
  dsimp only
  split_ifs with h1 h2 h3 <;>
    simp_all [consistency_strategy, balance_strategy, focus_strategy] <;>
    omega

/-- C6 witness: the theorem applied to a 3-hour profile. -/
theorem c6_strategy_rules_witness :
    consistency_strategy ∈
      (generate_action_plan_with_features
        ⟨25, "Daily", "RPG", 3, "Somewhat", [], []⟩).strategies ∧
    balance_strategy ∉
      (generate_action_plan_with_features
        ⟨25, "Daily", "RPG", 3, "Somewhat", [], []⟩).strategies :=
  (c6_strategy_rules _).2.1 rfl

/-- C10: for every profile the strategies list has at most two entries,
because the hours < 5 and hours > 20 rules can never fire together. -/
theorem c10_at_most_two_strategies (p : UserProfile) :
    ((generate_action_plan_with_features p).strategies).length ≤ 2 := by
  unfold generate_action_plan_with_features
  dsimp only
  split_ifs with h1 h2 h3 <;>
    simp only [List.length_append, List.length_cons, List.length_nil, List.nil_append] <;>
    omega

/-- C8: the action plan and the suggestion set are pure functions of the
profile — they are total (plain functions in the embedding) and
determined by the profile fields alone: two profiles agreeing on genre,
hours, competitiveness, features and event types receive identical
derived values, with no dependence on any other state. -/
theorem c8_pure_derivations (p q : UserProfile)
    (hg : p.preferred_genre = q.preferred_genre)
    (hh : p.hours_played_per_week = q.hours_played_per_week)
    (hc : p.competitiveness = q.competitiveness)
    (hf : p.selected_features = q.selected_features)
    (he : p.selected_event_types = q.selected_event_types) :
    generate_action_plan_with_features p = generate_action_plan_with_features q ∧
    generate_seo_aso_suggestions p = generate_seo_aso_suggestions q := by
  constructor <;>
    simp [generate_action_plan_with_features, generate_seo_aso_suggestions,
      hg, hh, hc, hf, he]

/-- C8 witness: the theorem applied to two profiles that differ in age
and gaming frequency only. -/
theorem c8_pure_derivations_witness :
    generate_action_plan_with_features ⟨25, "Daily", "RPG", 3, "Somewhat", [], []⟩ =
      generate_action_plan_with_features ⟨60, "Rarely", "RPG", 3, "Somewhat", [], []⟩ ∧
    generate_seo_aso_suggestions ⟨25, "Daily", "RPG", 3, "Somewhat", [], []⟩ =
      generate_seo_aso_suggestions ⟨60, "Rarely", "RPG", 3, "Somewhat", [], []⟩ :=
  c8_pure_derivations _ _ rfl rfl rfl rfl rfl

/-- C1 counterexample: a profile whose event types contain "Special
Promotions" and whose features contain "Social Interaction" gets three
ASO sentences, not exactly two, so the ASO output is not independent of
the Selected Features field. -/
theorem c1_counterexample :
    "Special Promotions" ∈
      (⟨25, "Daily", "Casual", 10, "Somewhat", ["Social Interaction"],
        ["Special Promotions"]⟩ : UserProfile).selected_event_types ∧
    (generate_seo_aso_suggestions
      ⟨25, "Daily", "Casual", 10, "Somewhat", ["Social Interaction"],
        ["Special Promotions"]⟩).aso_suggestions =
      [aso_promo_1, aso_promo_2, aso_social] ∧
    (generate_seo_aso_suggestions
      ⟨25, "Daily", "Casual", 10, "Somewhat", ["Social Interaction"],
        ["Special Promotions"]⟩).aso_suggestions.length ≠ 2 := by
  decide

/-- C1 (amended): whenever the event types contain "Special Promotions",
the two canned ASO sentences are appended, in that fixed order, as the
first two entries of the ASO list regardless of the other fields; the
list is exactly those two sentences unless "Social Interaction" is among
the Selected Features, which independently appends its own sentence
after them. -/
theorem c1_special_promotions_aso (p : UserProfile)
    (h : "Special Promotions" ∈ p.selected_event_types) :
    (generate_seo_aso_suggestions p).aso_suggestions =
      [aso_promo_1, aso_promo_2] ++
        (if "Social Interaction" ∈ p.selected_features then [aso_social] else []) := by
  unfold generate_seo_aso_suggestions
  dsimp only
  rw [if_pos h]
  split_ifs <;> simp

/-- C1 witness: the amended theorem applied to a profile with "Special
Promotions" selected and no features selected. -/
theorem c1_special_promotions_aso_witness :
    (generate_seo_aso_suggestions
      ⟨30, "Weekly", "Puzzle", 12, "Moderately", [], ["Special Promotions"]⟩).aso_suggestions =
      [aso_promo_1, aso_promo_2] ++
        (if "Social Interaction" ∈
            (⟨30, "Weekly", "Puzzle", 12, "Moderately", [], ["Special Promotions"]⟩ :
              UserProfile).selected_features
          then [aso_social] else []) :=
  c1_special_promotions_aso _ (by decide)

/-- C7: a strategy-expansion call whose completion request raises any
transport exception returns a string with the fixed prefix "Error
generating strategy expansion:" (the function is total, so nothing
propagates past the boundary), while a response with no choices returns
the sentinel text as a normal result. -/
theorem c7_expand_error_handling (api : ChatRequest → ApiOutcome)
    (model system_prompt strategy : String) (temperature : ℚ) (mid : String)
    (hm : SUPPORTED_MODELS.lookup model = some mid) :
    (∀ e, api ⟨mid, system_prompt, expand_user_query strategy, temperature, MAX_TOKENS⟩ =
        .exc e →
      expand_strategies_with_llm api model system_prompt strategy temperature =
        "Error generating strategy expansion: " ++ e ∧
      py_startswith (expand_strategies_with_llm api model system_prompt strategy temperature)
        "Error generating strategy expansion:" = true) ∧
    (api ⟨mid, system_prompt, expand_user_query strategy, temperature, MAX_TOKENS⟩ =
        .ok [] →
      expand_strategies_with_llm api model system_prompt strategy temperature =
        "No expansion available for this strategy.") := by
  constructor
  · intro e he
    have hr : expand_strategies_with_llm api model system_prompt strategy temperature =
        "Error generating strategy expansion: " ++ e := by
      simp [expand_strategies_with_llm, hm, he]
    refine ⟨hr, ?_⟩
    rw [hr,
      show ("Error generating strategy expansion: " : String) =
        "Error generating strategy expansion:" ++ " " from by decide,
      String.append_assoc]
    exact py_startswith_append _ _
  · intro h0
    simp [expand_strategies_with_llm, hm, h0]

/-- C7 witness: the theorem applied to the model "Llama 3 70B" with an
API that raises "timeout", and with one that returns no choices. -/
theorem c7_expand_error_handling_witness :
    (expand_strategies_with_llm (fun _ => .exc "timeout") "Llama 3 70B"
        "You are an expert in game development and strategy." "Focus on one game." 0.7 =
      "Error generating strategy expansion: " ++ "timeout") ∧
    (py_startswith
        (expand_strategies_with_llm (fun _ => .exc "timeout") "Llama 3 70B"
          "You are an expert in game development and strategy." "Focus on one game." 0.7)
        "Error generating strategy expansion:" = true) ∧
    (expand_strategies_with_llm (fun _ => .ok []) "Llama 3 70B"
        "You are an expert in game development and strategy." "Focus on one game." 0.7 =
      "No expansion available for this strategy.") :=
  ⟨((c7_expand_error_handling (fun _ => .exc "timeout") "Llama 3 70B"
      "You are an expert in game development and strategy." "Focus on one game." 0.7
      "llama3-70b-8192" (by decide)).1 "timeout" rfl).1,
   ((c7_expand_error_handling (fun _ => .exc "timeout") "Llama 3 70B"
      "You are an expert in game development and strategy." "Focus on one game." 0.7
      "llama3-70b-8192" (by decide)).1 "timeout" rfl).2,
   (c7_expand_error_handling (fun _ => .ok []) "Llama 3 70B"
      "You are an expert in game development and strategy." "Focus on one game." 0.7
      "llama3-70b-8192" (by decide)).2 rfl⟩

/-- C2: when the enhanced-plan completion call raises any transport
exception, `query_groq` returns the formatted string "Error: " followed
by the exception text (it is total, so nothing propagates), the reply
begins with "Error:", and `groq_ai_section_with_features` displays it as
an inline error rather than as a plan. -/
theorem c2_plan_error_handling (api : ChatRequest → ApiOutcome)
    (model : String) (temperature : ℚ) (p : UserProfile) (e : String)
    (h : api ⟨model, plan_system_prompt, plan_user_query p, temperature, MAX_TOKENS⟩ =
      .exc e) :
    query_groq api model temperature plan_system_prompt (plan_user_query p) =
      "Error: " ++ e ∧
    py_startswith (query_groq api model temperature plan_system_prompt (plan_user_query p))
      "Error:" = true ∧
    groq_ai_section_with_features api model temperature p =
      .errorShown ("Error: " ++ e) := by
  have hq : query_groq api model temperature plan_system_prompt (plan_user_query p) =
      "Error: " ++ e := by
    simp [query_groq, h]
  have hs : py_startswith ("Error: " ++ e) "Error:" = true := by
    rw [show ("Error: " : String) = "Error:" ++ " " from by decide, String.append_assoc]
    exact py_startswith_append _ _
  refine ⟨hq, by rw [hq]; exact hs, ?_⟩
  simp [groq_ai_section_with_features, hq, hs]

/-- C2 witness: the theorem applied to a concrete profile and an API
that raises "connection reset". -/
theorem c2_plan_error_handling_witness :
    query_groq (fun _ => .exc "connection reset") "Llama 3 70B" 0.7 plan_system_prompt
      (plan_user_query ⟨25, "Daily", "RPG", 5, "Somewhat", [], []⟩) =
      "Error: " ++ "connection reset" ∧
    py_startswith
      (query_groq (fun _ => .exc "connection reset") "Llama 3 70B" 0.7 plan_system_prompt
        (plan_user_query ⟨25, "Daily", "RPG", 5, "Somewhat", [], []⟩))
      "Error:" = true ∧
    groq_ai_section_with_features (fun _ => .exc "connection reset") "Llama 3 70B" 0.7
      ⟨25, "Daily", "RPG", 5, "Somewhat", [], []⟩ =
      .errorShown ("Error: " ++ "connection reset") :=
  c2_plan_error_handling (fun _ => .exc "connection reset") "Llama 3 70B" 0.7
    ⟨25, "Daily", "RPG", 5, "Somewhat", [], []⟩ "connection reset" rfl

/-- C3 counterexample: calling the expansion with the unknown model name
"GPT-4" yields the caught-exception error string (the `KeyError` from
the dict lookup is caught by the same `except` clause as a transport
failure, and its text carries the caught-error prefix), contradicting
the claim that unknown names are rejected as a configuration error
rather than converted into a caught error string. -/
theorem c3_counterexample :
    SUPPORTED_MODELS.lookup "GPT-4" = none ∧
    expand_strategies_with_llm (fun _ => .ok ["expanded text"]) "GPT-4"
      "You are an expert in game development and strategy." "Focus on one game." 0.7 =
      "Error generating strategy expansion: \x27GPT-4\x27" ∧
    py_startswith
      (expand_strategies_with_llm (fun _ => .ok ["expanded text"]) "GPT-4"
        "You are an expert in game development and strategy." "Focus on one game." 0.7)
      "Error generating strategy expansion:" = true := by
  decide

/-- C3 (amended): for a model name outside the allow-list the dict
lookup fails before any request to the hosted API is attempted — the
result is independent of the API oracle — but the failure is converted
by the surrounding exception handler into the caught-error string
"Error generating strategy expansion: " followed by the quoted model
name, rather than being rejected as a distinct configuration error. -/
theorem c3_unknown_model (api₁ api₂ : ChatRequest → ApiOutcome)
    (model system_prompt strategy : String) (temperature : ℚ)
    (h : SUPPORTED_MODELS.lookup model = none) :
    expand_strategies_with_llm api₁ model system_prompt strategy temperature =
      "Error generating strategy expansion: " ++ "\x27" ++ model ++ "\x27" ∧
    expand_strategies_with_llm api₁ model system_prompt strategy temperature =
      expand_strategies_with_llm api₂ model system_prompt strategy temperature := by
  constructor <;> simp [expand_strategies_with_llm, h]

/-- C3 witness: the amended theorem applied to the unknown model name
"Claude" with two API oracles that behave differently. -/
theorem c3_unknown_model_witness :
    expand_strategies_with_llm (fun _ => .exc "boom") "Claude" "sys" "Focus." 0.7 =
      "Error generating strategy expansion: " ++ "\x27" ++ "Claude" ++ "\x27" ∧
    expand_strategies_with_llm (fun _ => .exc "boom") "Claude" "sys" "Focus." 0.7 =
      expand_strategies_with_llm (fun _ => .ok ["fine"]) "Claude" "sys" "Focus." 0.7 :=
  c3_unknown_model (fun _ => .exc "boom") (fun _ => .ok ["fine"]) "Claude" "sys" "Focus." 0.7
    (by decide)

/-- C9: every per-strategy expansion call issued by the display routine
carries the hard-coded model name "Llama 3 70B", the hard-coded system
prompt, and the default temperature 0.7, whatever the sidebar holds (the
display routine never sees the sidebar values); the sidebar model and
temperature enter only the enhanced-plan request, in the sense that the
enhanced-plan section's outcome depends on the API oracle only through
its answer at the request built from the sidebar model and temperature. -/
theorem c9_hardcoded_expansion_params (plan : ActionPlan) (p : UserProfile)
    (call : ExpandCall)
    (hc : call ∈ (display_ai_agent_results plan p).expansion_calls)
    (api₁ api₂ : ChatRequest → ApiOutcome) (model : String) (temperature : ℚ)
    (hapi : api₁ ⟨model, plan_system_prompt, plan_user_query p, temperature, MAX_TOKENS⟩ =
            api₂ ⟨model, plan_system_prompt, plan_user_query p, temperature, MAX_TOKENS⟩) :
    call.model = "Llama 3 70B" ∧
    call.system_prompt = "You are an expert in game development and strategy." ∧
    call.temperature = 0.7 ∧
    groq_ai_section_with_features api₁ model temperature p =
      groq_ai_section_with_features api₂ model temperature p := by
  simp only [display_ai_agent_results, List.mem_map] at hc
  obtain ⟨s, hs, rfl⟩ := hc
  refine ⟨rfl, rfl, rfl, ?_⟩
  simp [groq_ai_section_with_features, query_groq, hapi]

/-- C9 witness: the theorem applied to a plan holding the consistency
strategy, the call it issues, and two API oracles agreeing at the
enhanced-plan request built from the sidebar selection ("Gemma 2 9B",
temperature 0.3). -/
theorem c9_hardcoded_expansion_params_witness :
    (⟨"Llama 3 70B", "You are an expert in game development and strategy.",
        consistency_strategy, 0.7⟩ : ExpandCall).model = "Llama 3 70B" ∧
    (⟨"Llama 3 70B", "You are an expert in game development and strategy.",
        consistency_strategy, 0.7⟩ : ExpandCall).system_prompt =
      "You are an expert in game development and strategy." ∧
    (⟨"Llama 3 70B", "You are an expert in game development and strategy.",
        consistency_strategy, 0.7⟩ : ExpandCall).temperature = 0.7 ∧
    groq_ai_section_with_features (fun _ => .ok ["plan text"]) "Gemma 2 9B" 0.3
      ⟨25, "Daily", "RPG", 3, "Somewhat", [], []⟩ =
      groq_ai_section_with_features (fun _ => .ok ["plan text"]) "Gemma 2 9B" 0.3
        ⟨25, "Daily", "RPG", 3, "Somewhat", [], []⟩ :=
  c9_hardcoded_expansion_params ⟨[], [consistency_strategy]⟩
    ⟨25, "Daily", "RPG", 3, "Somewhat", [], []⟩ _ (List.Mem.head _)
    (fun _ => .ok ["plan text"]) (fun _ => .ok ["plan text"]) "Gemma 2 9B" 0.3 rfl

set_option maxRecDepth 100000 in
/-- C4 counterexample: for a profile with an empty feature selection the
downloadable export (which equals the displayed "Full Game Strategy
Plan" block) renders the empty list in Python list syntax — it contains
"\x27Selected Features\x27: []" and the placeholder "None" occurs nowhere in
it — while the separately displayed User Profile section does render
"**Selected Features:** None"; so the export is not rendered like the
profile display, contradicting the claim that empty lists render as
"None" rather than list syntax in both. -/
theorem c4_counterexample :
    c4_profile.selected_features = [] ∧
    py_in "\x27Selected Features\x27: []"
      ((display_ai_agent_results (generate_action_plan_with_features c4_profile)
        c4_profile).download_data) = true ∧
    py_in "None"
      ((display_ai_agent_results (generate_action_plan_with_features c4_profile)
        c4_profile).download_data) = false ∧
    py_in "**Selected Features:** None"
      ((display_ai_agent_results (generate_action_plan_with_features c4_profile)
        c4_profile).profile_section) = true := by
  decide

/-- C4 (amended): the export is byte-identical to the displayed "Full
Game Strategy Plan" block for every profile; for an empty feature
selection the separately displayed User Profile section renders the
literal placeholder "None" for the feature field, while the export (and
the identical displayed full-plan block) renders the empty list in
Python list syntax as "[]". -/
theorem c4_export_formatting (p : UserProfile) (plan : ActionPlan) :
    (display_ai_agent_results plan p).download_data =
      (display_ai_agent_results plan p).full_plan_section ∧
    (p.selected_features = [] →
      (∃ a b, (display_ai_agent_results plan p).profile_section =
        a ++ "**Selected Features:** None" ++ b) ∧
      (∃ a b, (display_ai_agent_results plan p).download_data =
        a ++ "\x27Selected Features\x27: []" ++ b)) := by
  refine ⟨rfl, fun hf => ⟨?_, ?_⟩⟩
  · refine ⟨"\n    **Age:** " ++ toString p.age ++ "  \n    **Gaming Frequency:** " ++
      p.gaming_frequency ++ "  \n    **Preferred Genre:** " ++ p.preferred_genre ++
      "  \n    **Hours Played per Week:** " ++ toString p.hours_played_per_week ++
      "  \n    **Competitiveness:** " ++ p.competitiveness ++ "  \n    ",
      "  \n    **Selected Event Types:** " ++ joinOrNone p.selected_event_types ++ "\n    ",
      ?_⟩
    show user_profile_display p = _
    rw [user_profile_display, hf,
      show joinOrNone [] = "None" from rfl,
      show ("  \n    **Selected Features:** " : String) =
        "  \n    " ++ "**Selected Features:** " from by decide,
      show ("**Selected Features:** None" : String) =
        "**Selected Features:** " ++ "None" from by decide]
    simp only [String.append_assoc]
  · refine ⟨"User Profile:\n" ++ ("\x7b" ++ pyRepr "Age" ++ ": " ++ toString p.age ++
      ", " ++ pyRepr "Gaming Frequency" ++ ": " ++ pyRepr p.gaming_frequency ++
      ", " ++ pyRepr "Preferred Genre" ++ ": " ++ pyRepr p.preferred_genre ++
      ", " ++ pyRepr "Hours Played per Week" ++ ": " ++ toString p.hours_played_per_week ++
      ", " ++ pyRepr "Competitiveness" ++ ": " ++ pyRepr p.competitiveness ++ ", "),
      ", " ++ pyRepr "Selected Event Types" ++ ": " ++ pyReprList p.selected_event_types ++
      "\x7d" ++ ("\n\nGame Recommendations:\n" ++ pyReprList plan.game_recommendations ++
      "\n\nStrategies and Best Practices:\n" ++ pyReprList plan.strategies ++
      "\n\nSEO and ASO Suggestions:\n" ++ pyReprSuggestions (generate_seo_aso_suggestions p)),
      ?_⟩
    show full_results p plan (generate_seo_aso_suggestions p) = _
    rw [full_results, pyReprProfile, hf,
      show pyReprList [] = "[]" from rfl,
      show ("\x27Selected Features\x27: []" : String) =
        pyRepr "Selected Features" ++ ": " ++ "[]" from by decide]
    simp only [String.append_assoc]

/-- C4 witness: the amended theorem applied to the empty-feature profile
and its derived action plan. -/
theorem c4_export_formatting_witness :
    (display_ai_agent_results (generate_action_plan_with_features c4_profile)
        c4_profile).download_data =
      (display_ai_agent_results (generate_action_plan_with_features c4_profile)
        c4_profile).full_plan_section ∧
    (∃ a b, (display_ai_agent_results (generate_action_plan_with_features c4_profile)
        c4_profile).profile_section = a ++ "**Selected Features:** None" ++ b) ∧
    (∃ a b, (display_ai_agent_results (generate_action_plan_with_features c4_profile)
        c4_profile).download_data = a ++ "\x27Selected Features\x27: []" ++ b) :=
  ⟨(c4_export_formatting c4_profile (generate_action_plan_with_features c4_profile)).1,
   ((c4_export_formatting c4_profile (generate_action_plan_with_features c4_profile)).2 rfl).1,
   ((c4_export_formatting c4_profile (generate_action_plan_with_features c4_profile)).2 rfl).2⟩

end UxData
